import Mathlib

set_option maxHeartbeats 1000000

/-!
Shallow embedding of the esp32s2-powermeter firmware core
(src/graphics.rs, src/main.rs, src/max1704x.rs).

Conventions of the embedding:
- Rust `usize`/`u32`/`u16` values are modelled as `Nat`; narrowing casts that
  appear in the source are modelled with an explicit `% 65536` (the `as u16`
  cast in `List::new`). Unsigned subtraction that can underflow in Rust
  (a panic in debug builds, a wrap followed by an out-of-range `split_at`
  panic in release builds) is modelled by returning `none`.
- Rust `f32` fields and parameters are modelled as `ℚ`; the claims settled
  here only depend on exact comparison with `0.0` and on exact piecewise
  arithmetic, where the rational model is faithful to the source formulas.
- Strings handled by the truncation routine are modelled as `List Char`
  (the source indexes by bytes; ASCII text is assumed, one byte per char).
- Functions that in the source also draw to the display are modelled by
  their state transition only; the drawing itself is an external effect.
-/

/-! ## graphics.rs: GraphicUtils::get_text_with_ellipsis_from_str -/

/-- The three-character marker appended by truncation, `"..."` in the source. -/
def ellipsisMarker : List Char := ['.', '.', '.']

/-- Embeds `GraphicUtils::get_text_with_ellipsis_from_str (graphics.rs 64-74)`.
`width` is the pixel budget, `charWidth` the monospace character width
(`font.character_size.width`). The source computes
`text_width = char_width * len`; if it exceeds `width` it keeps the first
`width / char_width - 3` characters and appends `"..."`.
`none` models a Rust panic: the `u32` subtraction `text_len_visible - 3`
underflows when `width / char_width < 3` (debug panic; in release it wraps
and the following `split_at` call is out of range and panics). The second
`none` branch mirrors the `split_at` bounds contract; it is unreachable
when `charWidth > 0`. -/
def get_text_with_ellipsis_from_str (width : Nat) (text : List Char) (charWidth : Nat) :
    Option (List Char) :=
  let text_width := charWidth * text.length
  if width < text_width then
    let text_len_visible := width / charWidth
    if text_len_visible < 3 then none
    else if text.length < text_len_visible - 3 then none
    else some (text.take (text_len_visible - 3) ++ ellipsisMarker)
  else some text

/-! ## graphics.rs: the List widget (scroll-relevant state) -/

/-- The scroll-relevant state of the `List<T>` widget (graphics.rs 84-242).
`item_count` models `list_items.len()`; the item payloads, position, size
and colors do not influence `scroll_up`/`scroll_down`/the invariants and
are omitted. -/
structure ListState where
  item_count : Nat
  selected_index : Nat
  visible_lines : Nat
  window_start : Nat
deriving DecidableEq

/-- Embeds `List::new (graphics.rs 97-109)` restricted to the fields of
`ListState`. The source sets `visible_lines` to `1` for an empty item
collection and otherwise to `size.height as u16 / first_item.get_height()`
(`viewport_height % 65536` models the `as u16` cast). `none` models the
Rust division-by-zero panic when the first item reports height `0`. -/
def list_new (item_count viewport_height first_item_height : Nat) : Option ListState :=
  if item_count = 0 then
    some { item_count := item_count, selected_index := 0, visible_lines := 1, window_start := 0 }
  else if first_item_height = 0 then none
  else
    some { item_count := item_count, selected_index := 0,
           visible_lines := (viewport_height % 65536) / first_item_height,
           window_start := 0 }

/-- Embeds the state transition of `List::scroll_down (graphics.rs 190-200)`:
increment `selected_index` unless already at `item_count - 1`, then advance
`window_start` by one when the new selection lies past the window. -/
def scroll_down (s : ListState) : ListState :=
  let sel := if s.selected_index < s.item_count - 1 then s.selected_index + 1
             else s.selected_index
  let ws := if s.window_start + s.visible_lines - 1 < sel then s.window_start + 1
            else s.window_start
  { s with selected_index := sel, window_start := ws }

/-- Embeds the state transition of `List::scroll_up (graphics.rs 202-212)`:
decrement `selected_index` unless already `0`, then move `window_start`
back by one when the new selection lies before the window. -/
def scroll_up (s : ListState) : ListState :=
  let sel := if 0 < s.selected_index then s.selected_index - 1 else s.selected_index
  let ws := if sel < s.window_start then s.window_start - 1 else s.window_start
  { s with selected_index := sel, window_start := ws }

/-- A single scroll call on the list widget. -/
inductive ScrollOp where
  | down : ScrollOp
  | up : ScrollOp
deriving DecidableEq

/-- Applies a sequence of `scroll_down`/`scroll_up` calls in order. -/
def apply_scrolls : ListState → List ScrollOp → ListState
  | s, [] => s
  | s, ScrollOp.down :: ops => apply_scrolls (scroll_down s) ops
  | s, ScrollOp.up :: ops => apply_scrolls (scroll_up s) ops

/-- The window/selection invariant claimed for the list widget:
the window contains the selection and the selection is a valid index. -/
def ListInv (s : ListState) : Prop :=
  s.window_start ≤ s.selected_index ∧
  s.selected_index < s.window_start + s.visible_lines ∧
  s.selected_index < s.item_count

instance (s : ListState) : Decidable (ListInv s) := by
  unfold ListInv; infer_instance

theorem scroll_down_item_count (s : ListState) :
    (scroll_down s).item_count = s.item_count := rfl

theorem scroll_down_visible_lines (s : ListState) :
    (scroll_down s).visible_lines = s.visible_lines := rfl

theorem scroll_up_item_count (s : ListState) :
    (scroll_up s).item_count = s.item_count := rfl

theorem scroll_up_visible_lines (s : ListState) :
    (scroll_up s).visible_lines = s.visible_lines := rfl

theorem scroll_down_inv (s : ListState) (hvl : 1 ≤ s.visible_lines) (h : ListInv s) :
    ListInv (scroll_down s) := by
  simp only [ListInv, scroll_down] at h ⊢
  split_ifs <;> simp_all <;> omega

theorem scroll_up_inv (s : ListState) (hvl : 1 ≤ s.visible_lines) (h : ListInv s) :
    ListInv (scroll_up s) := by
  simp only [ListInv, scroll_up] at h ⊢
  split_ifs <;> simp_all <;> omega

theorem apply_scrolls_inv (ops : List ScrollOp) (s : ListState)
    (hvl : 1 ≤ s.visible_lines) (h : ListInv s) :
    ListInv (apply_scrolls s ops) ∧
    (apply_scrolls s ops).item_count = s.item_count := by
  induction ops generalizing s with
  | nil => exact ⟨h, rfl⟩
  | cons op ops ih =>
    cases op with
    | down =>
      have h1 := scroll_down_inv s hvl h
      have h2 := ih (scroll_down s) hvl h1
      exact ⟨h2.1, h2.2.trans (scroll_down_item_count s)⟩
    | up =>
      have h1 := scroll_up_inv s hvl h
      have h2 := ih (scroll_up s) hvl h1
      exact ⟨h2.1, h2.2.trans (scroll_up_item_count s)⟩

/-! ## Claim theorems for the List widget (C1, C9) -/

/-- C1 (counterexample): the claim as stated fails for a list that is
constructed over a non-empty item collection whose first item is taller
than the viewport: `List::new` with one item of height 20 and viewport
height 10 yields `visible_lines = 0`, and already after the empty sequence
of scroll calls the claimed window property
`window_start ≤ selected_index < window_start + visible_lines` is false
(`0 < 0 + 0` fails). -/
theorem c1_window_invariant_counterexample :
    list_new 1 10 20 =
      some { item_count := 1, selected_index := 0, visible_lines := 0, window_start := 0 } ∧
    ¬ ListInv (apply_scrolls
      { item_count := 1, selected_index := 0, visible_lines := 0, window_start := 0 } []) := by
  constructor
  · decide
  · decide

/-- C1 (amended): for every `List` constructed over a non-empty item
collection whose first item height is positive and no larger than the
effective viewport height (so that `visible_lines ≥ 1`), after any sequence
of `scroll_up`/`scroll_down` calls the state satisfies
`window_start ≤ selected_index < window_start + visible_lines` and
`selected_index ≤ item_count - 1`. -/
theorem c1_window_invariant (c vh ih : Nat) (s0 : ListState) (ops : List ScrollOp)
    (hnew : list_new c vh ih = some s0) (hc : 0 < c) (hih : 0 < ih)
    (hfit : ih ≤ vh % 65536) :
    (apply_scrolls s0 ops).window_start ≤ (apply_scrolls s0 ops).selected_index ∧
    (apply_scrolls s0 ops).selected_index <
      (apply_scrolls s0 ops).window_start + (apply_scrolls s0 ops).visible_lines ∧
    (apply_scrolls s0 ops).selected_index ≤ c - 1 := by
  have hc0 : ¬ c = 0 := Nat.pos_iff_ne_zero.mp hc
  have hih0 : ¬ ih = 0 := Nat.pos_iff_ne_zero.mp hih
  rw [list_new, if_neg hc0, if_neg hih0, Option.some.injEq] at hnew
  have hvl : 1 ≤ s0.visible_lines := by
    rw [← hnew]
    exact Nat.one_le_div_iff hih |>.mpr hfit
  have hinv : ListInv s0 := by
    rw [← hnew]
    refine ⟨Nat.le_refl 0, ?_, hc⟩
    simpa using Nat.one_le_div_iff hih |>.mpr hfit
  have hcount : s0.item_count = c := by rw [← hnew]
  obtain ⟨⟨h1, h2, h3⟩, h4⟩ := apply_scrolls_inv ops s0 hvl hinv
  refine ⟨h1, h2, ?_⟩
  rw [h4, hcount] at h3
  omega

/-- Witness for `c1_window_invariant`: a concrete run on a 5-item list with
viewport height 40 and item height 10 (`visible_lines = 4`), scrolling
down twice then up once. -/
theorem c1_window_invariant_witness :
    (apply_scrolls { item_count := 5, selected_index := 0, visible_lines := 4, window_start := 0 }
        [ScrollOp.down, ScrollOp.down, ScrollOp.up]).window_start ≤
      (apply_scrolls { item_count := 5, selected_index := 0, visible_lines := 4, window_start := 0 }
        [ScrollOp.down, ScrollOp.down, ScrollOp.up]).selected_index ∧
    (apply_scrolls { item_count := 5, selected_index := 0, visible_lines := 4, window_start := 0 }
        [ScrollOp.down, ScrollOp.down, ScrollOp.up]).selected_index <
      (apply_scrolls { item_count := 5, selected_index := 0, visible_lines := 4, window_start := 0 }
        [ScrollOp.down, ScrollOp.down, ScrollOp.up]).window_start +
      (apply_scrolls { item_count := 5, selected_index := 0, visible_lines := 4, window_start := 0 }
        [ScrollOp.down, ScrollOp.down, ScrollOp.up]).visible_lines ∧
    (apply_scrolls { item_count := 5, selected_index := 0, visible_lines := 4, window_start := 0 }
        [ScrollOp.down, ScrollOp.down, ScrollOp.up]).selected_index ≤ 5 - 1 :=
  c1_window_invariant 5 40 10
    { item_count := 5, selected_index := 0, visible_lines := 4, window_start := 0 }
    [ScrollOp.down, ScrollOp.down, ScrollOp.up]
    (by decide) (by decide) (by decide) (by decide)

/-- C9 (counterexample): the claim that `visible_lines` is never `0` fails:
constructing a list over three items of height 20 with viewport height 19
yields `visible_lines = 19 / 20 = 0`. -/
theorem c9_visible_lines_counterexample :
    list_new 3 19 20 =
      some { item_count := 3, selected_index := 0, visible_lines := 0, window_start := 0 } ∧
    ¬ 1 ≤ (ListState.mk 3 0 0 0).visible_lines := by
  constructor
  · decide
  · decide

/-- C9 (amended): construction sets `visible_lines = 1` for an empty item
collection, and `(viewport_height mod 2^16) / first_item_height` for a
non-empty one (given a positive item height, otherwise the source panics);
the result is at least `1` only when the first item height is at most the
effective viewport height — a first item taller than the viewport yields
`visible_lines = 0`. -/
theorem c9_visible_lines (c vh ih : Nat) (hih : 0 < ih) :
    (c = 0 → ∃ s, list_new c vh ih = some s ∧ s.visible_lines = 1) ∧
    (c ≠ 0 → ∃ s, list_new c vh ih = some s ∧
      s.visible_lines = (vh % 65536) / ih ∧
      (ih ≤ vh % 65536 → 1 ≤ s.visible_lines)) := by
  constructor
  · intro hc
    subst hc
    exact ⟨_, by rw [list_new, if_pos rfl], rfl⟩
  · intro hc
    have hih0 : ¬ ih = 0 := Nat.pos_iff_ne_zero.mp hih
    refine ⟨_, by rw [list_new, if_neg hc, if_neg hih0], rfl, ?_⟩
    intro hfit
    exact Nat.one_le_div_iff hih |>.mpr hfit

/-- Witness for `c9_visible_lines`: viewport height 100, item height 25,
5 items gives `visible_lines = 4 ≥ 1`. -/
theorem c9_visible_lines_witness :
    ∃ s, list_new 5 100 25 = some s ∧
      s.visible_lines = (100 % 65536) / 25 ∧
      (25 ≤ 100 % 65536 → 1 ≤ s.visible_lines) :=
  (c9_visible_lines 5 100 25 (by decide)).2 (by decide)

/-! ## Claim theorems for text truncation (C4, C5) -/

/-- C4 (counterexample): the claim as stated fails when the visible
character budget `max_width / char_width` is below 3: for `max_width = 5`,
`char_width = 10` and the one-character text `"a"` the rendered width
`10` exceeds `5`, but the source panics on the unsigned subtraction
`text_len_visible - 3` (modelled as `none`) instead of returning a
truncated string. -/
theorem c4_truncation_counterexample :
    get_text_with_ellipsis_from_str 5 ['a'] 10 = none := by decide

/-- C4 (amended): when the rendered width `char_width * length` exceeds
`max_width` and the visible budget `max_width / char_width` is at least 3,
truncation returns the first `max_width / char_width - 3` characters
followed by `"..."`; when the rendered width does not exceed `max_width`
the text is returned unchanged. In particular, for `max_width = 100`,
text `"HelloWorldExtra"` and `char_width = 10` the result is the
7-character prefix `"HelloWo"` plus the marker, total length 10. -/
theorem c4_truncation :
    (∀ (width charWidth : Nat) (text : List Char),
      width < charWidth * text.length → 3 ≤ width / charWidth →
      get_text_with_ellipsis_from_str width text charWidth =
        some (text.take (width / charWidth - 3) ++ ellipsisMarker)) ∧
    (∀ (width charWidth : Nat) (text : List Char),
      charWidth * text.length ≤ width →
      get_text_with_ellipsis_from_str width text charWidth = some text) ∧
    get_text_with_ellipsis_from_str 100 ("HelloWorldExtra".toList) 10 =
      some ("HelloWo...".toList) ∧
    ("HelloWo...".toList).length = 10 := by
  refine ⟨?_, ?_, by decide, by decide⟩
  · intro width charWidth text hover hfit
    have hcw : 0 < charWidth := by
      rcases Nat.eq_zero_or_pos charWidth with h | h
      · subst h; simp at hover
      · exact h
    have hlt : width / charWidth < text.length :=
      (Nat.div_lt_iff_lt_mul hcw).mpr (by rw [Nat.mul_comm]; exact hover)
    simp only [get_text_with_ellipsis_from_str]
    split_ifs with h1 h2
    · omega
    · omega
    · rfl
  · intro width charWidth text hle
    simp only [get_text_with_ellipsis_from_str]
    rw [if_neg (by omega : ¬ width < charWidth * text.length)]

/-- Witness for `c4_truncation`: the truncating branch applied at
`max_width = 100`, `char_width = 10`, text `"HelloWorldExtra"`. -/
theorem c4_truncation_witness :
    get_text_with_ellipsis_from_str 100 ("HelloWorldExtra".toList) 10 =
      some (("HelloWorldExtra".toList).take (100 / 10 - 3) ++ ellipsisMarker) :=
  c4_truncation.1 100 10 ("HelloWorldExtra".toList) (by decide) (by decide)

/-- C5 (confirmed): truncation with ellipsis is idempotent wherever it is
defined: if a call returns `some out`, then applying the function to `out`
with the same `max_width` and `char_width` returns `some out` again. -/
theorem c5_truncation_idempotent (width charWidth : Nat) (text out : List Char)
    (h : get_text_with_ellipsis_from_str width text charWidth = some out) :
    get_text_with_ellipsis_from_str width out charWidth = some out := by
  simp only [get_text_with_ellipsis_from_str] at h
  by_cases hw : width < charWidth * text.length
  · rw [if_pos hw] at h
    by_cases h3 : width / charWidth < 3
    · rw [if_pos h3] at h; exact absurd h (by simp)
    · rw [if_neg h3] at h
      by_cases h4 : text.length < width / charWidth - 3
      · rw [if_pos h4] at h; exact absurd h (by simp)
      · rw [if_neg h4] at h
        have hout : out = text.take (width / charWidth - 3) ++ ellipsisMarker :=
          (Option.some.injEq _ _).mp h.symm
        have hlen : out.length = width / charWidth := by
          rw [hout, List.length_append, List.length_take]
          have hle : width / charWidth - 3 ≤ text.length := by omega
          rw [Nat.min_eq_left hle]
          simp only [ellipsisMarker, List.length_cons, List.length_nil]
          omega
        have hmul : charWidth * (width / charWidth) ≤ width := by
          rw [Nat.mul_comm]
          exact Nat.div_mul_le_self width charWidth
        have hnot : ¬ width < charWidth * out.length := by
          rw [hlen]
          omega
        simp only [get_text_with_ellipsis_from_str]
        rw [if_neg hnot]
  · rw [if_neg hw] at h
    have hout : out = text := (Option.some.injEq _ _).mp h.symm
    subst hout
    simp only [get_text_with_ellipsis_from_str]
    rw [if_neg hw]

/-- Witness for `c5_truncation_idempotent`: the output of the concrete
truncation of `"HelloWorldExtra"` at width 100 is a fixed point. -/
theorem c5_truncation_idempotent_witness :
    get_text_with_ellipsis_from_str 100 ("HelloWorldExtra".toList) 10 =
      some ("HelloWo...".toList) ∧
    get_text_with_ellipsis_from_str 100 ("HelloWo...".toList) 10 =
      some ("HelloWo...".toList) :=
  ⟨by decide,
   c5_truncation_idempotent 100 10 ("HelloWorldExtra".toList) ("HelloWo...".toList) (by decide)⟩

/-! ## main.rs: display modes, calibration cycling and button handling -/

/-- Embeds the `PowerDisplay` enumeration (main.rs 85-90), declared in the
order `Voltage`, `Current`, `Power`; the derived `Sequence` instance of
the source uses this declaration order. -/
inductive PowerDisplay where
  | Voltage : PowerDisplay
  | Current : PowerDisplay
  | Power : PowerDisplay
deriving DecidableEq

/-- The `previous` operation of the derived `Sequence` instance on
`PowerDisplay`: step back in declaration order, `none` at the first
variant. -/
def PowerDisplay.previous : PowerDisplay → Option PowerDisplay
  | PowerDisplay.Voltage => none
  | PowerDisplay.Current => some PowerDisplay.Voltage
  | PowerDisplay.Power => some PowerDisplay.Current

/-- The `next` operation of the derived `Sequence` instance on
`PowerDisplay`: step forward in declaration order, `none` at the last
variant. -/
def PowerDisplay.next : PowerDisplay → Option PowerDisplay
  | PowerDisplay.Voltage => some PowerDisplay.Current
  | PowerDisplay.Current => some PowerDisplay.Power
  | PowerDisplay.Power => none

/-- Embeds the `Calibration` enumeration of the ina219 driver; the
exhaustive match in `get_calibration_text (main.rs 196-202)` shows it has
exactly these three variants. -/
inductive Calibration where
  | Calibration_32V_2A : Calibration
  | Calibration_32V_1A : Calibration
  | Calibration_16V_400mA : Calibration
deriving DecidableEq

/-- The ordered list of all `Calibration` variants. -/
def calibration_values : List Calibration :=
  [Calibration.Calibration_32V_2A, Calibration.Calibration_32V_1A,
   Calibration.Calibration_16V_400mA]

/-- Embeds `cardinality::<Calibration>()` from the render loop
(main.rs 429): the number of `Calibration` variants. -/
def calibration_cardinality : Nat := calibration_values.length

/-- Embeds `get_calibration (main.rs 187-194)`: index to preset, with the
first preset as the default for out-of-range indices. -/
def get_calibration (index : Nat) : Calibration :=
  match index with
  | 0 => Calibration.Calibration_32V_2A
  | 1 => Calibration.Calibration_32V_1A
  | 2 => Calibration.Calibration_16V_400mA
  | _ => Calibration.Calibration_32V_2A

/-- Embeds `get_calibration_text (main.rs 196-202)`. -/
def get_calibration_text (cal : Calibration) : String :=
  match cal with
  | Calibration.Calibration_32V_2A => "32V - 2A"
  | Calibration.Calibration_32V_1A => "32V - 1A"
  | Calibration.Calibration_16V_400mA => "16V - 400mA"

/-- The mutable render-loop state touched by button events
(main.rs 406, 419): the authoritative calibration index `cal_index` and
the current display mode `power_display`. -/
structure RenderState where
  cal_index : Nat
  power_display : PowerDisplay
deriving DecidableEq

/-- Embeds the button match of the render loop (main.rs 426-442):
button 0 advances `cal_index` modulo the calibration cardinality,
button 1 moves the display mode to `previous().unwrap_or(Voltage)`,
button 2 to `next().unwrap_or(Power)`; other values leave the state
unchanged. The calibration signal send and the status-message overlay
of the button-0 arm are external effects outside this state. -/
def handle_button (st : RenderState) (button : Int) : RenderState :=
  if button = 0 then
    { st with cal_index := (st.cal_index + 1) % calibration_cardinality }
  else if button = 1 then
    { st with power_display := (st.power_display.previous).getD PowerDisplay.Voltage }
  else if button = 2 then
    { st with power_display := (st.power_display.next).getD PowerDisplay.Power }
  else st

theorem handle_button_zero_cal_index (st : RenderState) :
    (handle_button st 0).cal_index = (st.cal_index + 1) % 3 := rfl

/-- C6 (confirmed): each calibration-cycle event (button 0) advances the
authoritative index to `(index + 1) % 3`, and three consecutive cycle
events starting from index 0 return the index to 0. -/
theorem c6_calibration_cycle_modular :
    (∀ st : RenderState,
      (handle_button st 0).cal_index = (st.cal_index + 1) % 3) ∧
    (∀ st : RenderState, st.cal_index = 0 →
      (handle_button (handle_button (handle_button st 0) 0) 0).cal_index = 0) := by
  constructor
  · intro st
    rfl
  · intro st h
    rw [handle_button_zero_cal_index, handle_button_zero_cal_index,
      handle_button_zero_cal_index, h]

/-- Witness for `c6_calibration_cycle_modular`: starting from the initial
render state (index 0, Voltage mode), three button-0 events return the
calibration index to 0. -/
theorem c6_calibration_cycle_modular_witness :
    (handle_button (handle_button (handle_button
      { cal_index := 0, power_display := PowerDisplay.Voltage } 0) 0) 0).cal_index = 0 :=
  c6_calibration_cycle_modular.2
    { cal_index := 0, power_display := PowerDisplay.Voltage } rfl

/-- C7 (confirmed): display-mode cycling clamps at the enumeration bounds:
a button-1 (previous) event in the first mode `Voltage` leaves the mode
unchanged, and a button-2 (next) event in the last mode `Power` leaves the
mode unchanged. -/
theorem c7_display_mode_clamps :
    (∀ st : RenderState, st.power_display = PowerDisplay.Voltage →
      (handle_button st 1).power_display = PowerDisplay.Voltage) ∧
    (∀ st : RenderState, st.power_display = PowerDisplay.Power →
      (handle_button st 2).power_display = PowerDisplay.Power) := by
  constructor
  · intro st h
    simp [handle_button, h, PowerDisplay.previous]
  · intro st h
    simp [handle_button, h, PowerDisplay.next]

/-- Witness for `c7_display_mode_clamps`: concrete states in the first and
last display mode are left unchanged by the respective button events. -/
theorem c7_display_mode_clamps_witness :
    (handle_button { cal_index := 0, power_display := PowerDisplay.Voltage } 1).power_display =
      PowerDisplay.Voltage ∧
    (handle_button { cal_index := 0, power_display := PowerDisplay.Power } 2).power_display =
      PowerDisplay.Power :=
  ⟨c7_display_mode_clamps.1 { cal_index := 0, power_display := PowerDisplay.Voltage } rfl,
   c7_display_mode_clamps.2 { cal_index := 0, power_display := PowerDisplay.Power } rfl⟩

/-! ## main.rs: the render loop Voltage display arm (C3) -/

/-- The `PowerMonitor` snapshot of the ina219 driver (fields as in
`InputData::new`, main.rs 67-72); `f32` fields modelled as `ℚ`. -/
structure PowerMonitor where
  Shunt : ℚ
  Voltage : ℚ
  Current : ℚ
  Power : ℚ
deriving DecidableEq

/-- Left-pads the fractional part to three digits, as the fixed-precision
format of `write!` does. -/
def pad3 (n : Nat) : String :=
  if n < 10 then "00" ++ toString n
  else if n < 100 then "0" ++ toString n
  else toString n

/-- Decimal rendering with exactly three fractional digits, modelling the
Rust format specifier precision `.3` applied to a numeric value: the
value is rounded to the nearest thousandth and printed as
`integer part "." three fractional digits` (with a leading `-` for
negative values). Only exactly representable inputs are used by the
theorems below, where every rounding convention agrees. -/
def fmtFixed3 (q : ℚ) : String :=
  let sign := if q < 0 then "-" else ""
  let scaled := (round (|q| * 1000)).toNat
  sign ++ toString (scaled / 1000) ++ "." ++ pad3 (scaled % 1000)

/-- Right-justification to a minimum field width, modelling the Rust
format specifier `>w`: pad with spaces on the left when the rendered
text is shorter than `w`. -/
def padStart (w : Nat) (s : String) : String :=
  if s.length < w then String.mk (List.replicate (w - s.length) ' ') ++ s else s

/-- Embeds the `PowerDisplay::Voltage` match arm of the render loop
(main.rs 456-462): when the snapshot's `Current` field is nonzero the
buffer receives `format ">2.3" power.Voltage`, otherwise the fallback
`format ">2.3" 0.0`. -/
def voltage_mode_text (power : PowerMonitor) : String :=
  if power.Current ≠ 0 then padStart 2 (fmtFixed3 power.Voltage)
  else padStart 2 (fmtFixed3 0)

/-- C3 (confirmed): for every received power snapshot whose `Current`
field equals `0.0`, the Voltage display arm formats the fallback text
`"0.000"` (the formatted constant `0.0`), independent of the snapshot's
`Voltage` field. -/
theorem c3_zero_current_voltage_fallback (power : PowerMonitor)
    (h : power.Current = 0) :
    voltage_mode_text power = "0.000" := by
  rw [voltage_mode_text, if_neg (by simp [h])]
  simp [fmtFixed3, pad3, padStart]
  rfl

/-- Witness for `c3_zero_current_voltage_fallback`: the scenario snapshot
`{current = 0, voltage = 5}` renders as `"0.000"`. -/
theorem c3_zero_current_voltage_fallback_witness :
    voltage_mode_text { Shunt := 0, Voltage := 5, Current := 0, Power := 0 } = "0.000" :=
  c3_zero_current_voltage_fallback
    { Shunt := 0, Voltage := 5, Current := 0, Power := 0 } rfl

/-! ## max1704x.rs: temperature compensation (C8) -/

/-- Embeds the constant `DEFAULT_RCOMP = 0x97` (max1704x.rs 7). -/
def DEFAULT_RCOMP : Nat := 0x97

/-- Embeds the `rcomp` computation of `Max17048::temp_compensation`
(max1704x.rs 54-61): above 20 degrees the compensation value is
`DEFAULT_RCOMP + (temp - 20) * (-0.5)`, otherwise
`DEFAULT_RCOMP + (temp - 20) * (-5.0)`; `f32` arithmetic modelled
exactly over `ℚ`. -/
def temp_compensation_value (temp : ℚ) : ℚ :=
  if 20 < temp then (DEFAULT_RCOMP : ℚ) + (temp - 20) * (-0.5)
  else (DEFAULT_RCOMP : ℚ) + (temp - 20) * (-5.0)

/-- The `rcomp as u8` cast applied to the compensation value before the
register write (max1704x.rs 60): a Rust float-to-`u8` cast truncates
toward zero and saturates to `[0, 255]`. -/
def temp_compensation_byte (temp : ℚ) : Nat :=
  let v := temp_compensation_value temp
  if v < 0 then 0 else min 255 (Int.toNat ⌊v⌋)

/-- C8 (confirmed): the compensation value is computed piecewise from the
baseline byte `DEFAULT_RCOMP = 151`: slope `-0.5` per degree above 20,
slope `-5.0` per degree at or below 20, and the two slopes are distinct —
the function is not a single linear function of the temperature. -/
theorem c8_temp_compensation_piecewise :
    (∀ temp : ℚ, 20 < temp →
      temp_compensation_value temp = 151 + (temp - 20) * (-0.5)) ∧
    (∀ temp : ℚ, temp ≤ 20 →
      temp_compensation_value temp = 151 + (temp - 20) * (-5)) ∧
    ¬ (∃ a b : ℚ, ∀ temp : ℚ, temp_compensation_value temp = a * temp + b) := by
  refine ⟨?_, ?_, ?_⟩
  · intro temp h
    rw [temp_compensation_value, if_pos h]
    norm_num [DEFAULT_RCOMP]
  · intro temp h
    rw [temp_compensation_value, if_neg (not_lt.mpr h)]
    norm_num [DEFAULT_RCOMP]
  · rintro ⟨a, b, hlin⟩
    have h10 := hlin 10
    have h20 := hlin 20
    have h30 := hlin 30
    rw [temp_compensation_value] at h10 h20 h30
    rw [if_neg (by norm_num)] at h10
    rw [if_neg (by norm_num)] at h20
    rw [if_pos (by norm_num)] at h30
    norm_num [DEFAULT_RCOMP] at h10 h20 h30
    linarith

/-- Witness for `c8_temp_compensation_piecewise`: both slopes evaluated at
concrete temperatures via the theorem, at 30 and at 10 degrees. -/
theorem c8_temp_compensation_piecewise_witness :
    temp_compensation_value 30 = 151 + (30 - 20) * (-0.5) ∧
    temp_compensation_value 10 = 151 + (10 - 20) * (-5) :=
  ⟨c8_temp_compensation_piecewise.1 30 (by norm_num),
   c8_temp_compensation_piecewise.2.1 10 (by norm_num)⟩
